import Mathlib

/-!
Shallow embedding of the order lifecycle and payment-settlement core of the
pallet-spaces backend (`src/backend/src/plugins/orders.rs` and
`src/backend/src/plugins/users.rs`), together with theorems checking the
natural-language specification against it.

Dates are modelled as day numbers (`Int`), mirroring `chrono::NaiveDate`
arithmetic where only differences in days are observed.  A user- or
database-supplied date *string* is modelled by the two observations the code
makes of it: whether it trims to the empty string, and its
`NaiveDate::parse_from_str(_, "%Y-%m-%d")` result.
-/

namespace PalletSpaces

/-- Observations the code makes of a date string: `s.trim().is_empty()` and
`chrono::NaiveDate::parse_from_str(&s, "%Y-%m-%d")`. -/
structure DateStr where
  trimEmpty : Bool
  parse : Option Int
deriving Repr, DecidableEq

/-- A row of the `Orders` table (`struct Order` in
`src/backend/src/plugins/orders.rs`), restricted to the columns the embedded
handlers read or write.  `status` is the raw text enum. -/
structure OrderRow where
  post_id : Int
  renter_user_id : Int
  renter_name : String
  renter_email : String
  quantity : Int
  start_date : DateStr
  end_date : DateStr
  status : String
  stripe_session_id : Option String
  stripe_checkout_url : Option String
deriving Repr, DecidableEq

/-- A row of the `Posts` table (`struct Post` in
`src/backend/src/plugins/posts.rs`), restricted to the fields the order
handlers read. -/
structure Post where
  title : String
  price : Int
  user_id : Int
  spaces_available : Int
  available_date : DateStr
  end_date : DateStr
deriving Repr, DecidableEq

/-- The `Orders` table: association list from rowid to row. -/
abbrev OrdersTable := List (Int × OrderRow)

/-- The `Posts` table, read-only here: lookup by id
(`Post::retrieve` / `SELECT * FROM Posts WHERE id=?1`). -/
abbrev PostsTable := Int → Option Post

/-- `SELECT * FROM Orders WHERE id=?1` (first matching row, if any). -/
def lookupOrder (tab : OrdersTable) (oid : Int) : Option OrderRow :=
  (tab.find? (fun p => p.1 == oid)).map Prod.snd

/-- An SQL `UPDATE Orders SET ... WHERE id=?1`: applies `f` to every row
whose id matches (ids are a primary key, so at most one in practice). -/
def updateRows (tab : OrdersTable) (oid : Int) (f : OrderRow → OrderRow) :
    OrdersTable :=
  tab.map (fun p => if p.1 == oid then (p.1, f p.2) else p)

/-- The authenticated user, as the order handlers observe it
(`auth.user`: id, name, email). -/
structure AuthUser where
  id : Int
  name : String
  email : String
deriving Repr, DecidableEq

/-- The `NewOrder` form payload of a rent request. -/
structure NewOrder where
  quantity : Int
  start_date : DateStr
  end_date : DateStr
deriving Repr, DecidableEq

/-- An HTTP response, restricted to the outcomes the embedded handlers
produce.  `axum::response::Redirect::to` is a 303 See Other. -/
inductive Resp where
  | loginRedirect (dest : String)
  | seeOther (dest : String)
  | notFound
  | forbidden
  | badRequest
  | okPage (page : String)
  | serverError
deriving Repr, DecidableEq

/-- The HTTP status code of a response. -/
def respStatus : Resp → Nat
  | .loginRedirect _ => 303
  | .seeOther _ => 303
  | .notFound => 404
  | .forbidden => 403
  | .badRequest => 400
  | .okPage _ => 200
  | .serverError => 500

/-- `Order::rent_request` (`POST /posts/{id}/rent`,
`src/backend/src/plugins/orders.rs` lines 438–496).  `rowid` is the rowid
the database assigns to a successful insert (`last_insert_rowid`). -/
def rent_request (tab : OrdersTable) (posts : PostsTable) (id : Int)
    (auth : Option AuthUser) (payload : NewOrder) (rowid : Int) :
    Resp × OrdersTable :=
  match auth with
  | none => (.loginRedirect ("/login?next=/posts/" ++ toString id ++ "/rent"), tab)
  | some u =>
    if payload.quantity ≤ 0 ∨ payload.start_date.trimEmpty ∨
        payload.end_date.trimEmpty then
      (.badRequest, tab)
    else
      match posts id with
      | none => (.notFound, tab)
      | some post =>
        match payload.start_date.parse with
        | none => (.badRequest, tab)
        | some start_date =>
          match payload.end_date.parse with
          | none => (.badRequest, tab)
          | some end_date =>
            if end_date < start_date then (.badRequest, tab)
            else
              let post_start := post.available_date.parse.getD start_date
              let post_end := post.end_date.parse.getD end_date
              if start_date < post_start ∨ post_end < end_date then
                (.badRequest, tab)
              else
                (.seeOther ("/orders/" ++ toString rowid ++ "/confirm"),
                 tab ++ [(rowid,
                   { post_id := id
                     renter_user_id := u.id
                     renter_name := u.name
                     renter_email := u.email
                     quantity := payload.quantity
                     start_date := payload.start_date
                     end_date := payload.end_date
                     status := "pending_review"
                     stripe_session_id := none
                     stripe_checkout_url := none })])

/-- Outcome of `service::submit_stripe_checkout_session`:
`Ok(Some((sid, url)))`, `Ok(None)`, or `Err(_)`. -/
inductive GatewayOutcome where
  | session (sid url : String)
  | noSession
  | gatewayError
deriving Repr, DecidableEq

/-- `Order::confirm_submit` (`POST /orders/{id}/confirm`,
`src/backend/src/plugins/orders.rs` lines 514–577).  `gateway` is the result
of the Stripe checkout-session call, `none` when no Stripe client is
configured (the `#[cfg(feature = "stripe")] if let Some(client)` guard fails,
leaving `submitted = false`); the priced inputs of that call are modelled
separately by `confirm_days` and `price_cents_per_day`. -/
def confirm_submit (tab : OrdersTable) (posts : PostsTable) (oid : Int)
    (auth : Option AuthUser) (gateway : Option GatewayOutcome) :
    Resp × OrdersTable :=
  match auth with
  | none => (.loginRedirect "/login?next=/orders", tab)
  | some u =>
    match lookupOrder tab oid with
    | none => (.notFound, tab)
    | some order =>
      if order.renter_user_id ≠ u.id then (.forbidden, tab)
      else
        match posts order.post_id with
        | none => (.notFound, tab)
        | some _post =>
          let res : Bool × Option String × Option String :=
            match gateway with
            | some (.session sid url) => (true, some sid, some url)
            | some .noSession => (false, none, none)
            | some .gatewayError => (false, none, none)
            | none => (false, none, none)
          match res with
          | (true, sid, urlOpt) =>
            let tab1 := updateRows tab oid (fun r =>
              { r with status := "submitted", stripe_session_id := sid,
                       stripe_checkout_url := urlOpt })
            match urlOpt with
            | some url => (.seeOther url, tab1)
            | none =>
              (.okPage "rent_received_pending",
               updateRows tab1 oid (fun r => { r with status := "submitted" }))
          | (false, _, _) =>
            (.okPage "rent_received_pending",
             updateRows tab oid (fun r => { r with status := "submitted" }))

/-- `Order::cancel_order` (`POST /orders/{id}/cancel`,
`src/backend/src/plugins/orders.rs` lines 579–595).  Note the update
`UPDATE Orders SET status='cancelled' WHERE id=?1` carries no status guard. -/
def cancel_order (tab : OrdersTable) (oid : Int) (auth : Option AuthUser) :
    Resp × OrdersTable :=
  match auth with
  | none => (.loginRedirect "/login?next=/orders", tab)
  | some u =>
    let owner := (lookupOrder tab oid).map OrderRow.renter_user_id
    if owner ≠ some u.id then (.forbidden, tab)
    else (.seeOther "/orders",
          updateRows tab oid (fun r => { r with status := "cancelled" }))

/-! ### JSON values, as observed through `serde_json` -/

/-- A `serde_json::Value`. -/
inductive Json where
  | null
  | bool (b : Bool)
  | num (n : Int)
  | str (s : String)
  | arr (xs : List Json)
  | obj (fields : List (String × Json))

/-- `Value::get(key)`: field of an object, else `None`. -/
def Json.get : Json → String → Option Json
  | .obj fields, k => (fields.find? (fun p => p.1 == k)).map Prod.snd
  | _, _ => none

/-- `Value::as_str()`. -/
def Json.asStr : Json → Option String
  | .str s => some s
  | _ => none

/-- `Value::as_bool()`. -/
def Json.asBool : Json → Option Bool
  | .bool b => some b
  | _ => none

/-- `Value::as_array()`. -/
def Json.asArr : Json → Option (List Json)
  | .arr xs => some xs
  | _ => none

/-- `Value::as_object()` (the object's field map). -/
def Json.asObj : Json → Option (List (String × Json))
  | .obj fields => some fields
  | _ => none

/-- `Map::get(key)` on the field map obtained from `as_object()`. -/
def objGet (fields : List (String × Json)) (k : String) : Option Json :=
  (fields.find? (fun p => p.1 == k)).map Prod.snd

/-! ### Machine-integer arithmetic used by the pricing path -/

/-- `i64::MAX`. -/
def i64Max : Int := 2 ^ 63 - 1

/-- `i64::MIN`. -/
def i64Min : Int := -(2 ^ 63)

/-- `i64::saturating_mul`. -/
def saturating_mul_i64 (a b : Int) : Int :=
  if i64Max < a * b then i64Max
  else if a * b < i64Min then i64Min
  else a * b

/-- Wrapping interpretation of an `i64` expression (release-mode overflow). -/
def wrap_i64 (x : Int) : Int := (x + 2 ^ 63) % 2 ^ 64 - 2 ^ 63

/-- `total_units.try_into().unwrap_or(0)` : `i64 → u64`, where only a
negative value fails the conversion. -/
def u64_of_i64_or_zero (x : Int) : Int := if x < 0 then 0 else x

/-- `str::parse::<i64>()`: optional sign, at least one ASCII digit, nothing
else, value within `i64` range. -/
def parseI64 (s : String) : Option Int :=
  let signed : Int × List Char :=
    match s.data with
    | '+' :: rest => (1, rest)
    | '-' :: rest => (-1, rest)
    | cs => (1, cs)
  match signed with
  | (sign, digits) =>
    if digits.isEmpty then none
    else if digits.all Char.isDigit then
      let n : Nat := digits.foldl (fun acc c => acc * 10 + (c.toNat - 48)) 0
      let v : Int := sign * (n : Int)
      if v < i64Min ∨ i64Max < v then none else some v
    else none

/-! ### Pricing inputs of the checkout-session call -/

/-- The `days` computed in `Order::confirm_submit` (lines 534–536):
`start_date` falls back to today's date when unparseable, `end_date` falls
back to `start_date`, and `days = (end_date - start_date).num_days().max(1)`. -/
def confirm_days (order : OrderRow) (today : Int) : Int :=
  let start_date := order.start_date.parse.getD today
  let end_date := order.end_date.parse.getD start_date
  max (end_date - start_date) 1

/-- `price_cents_per_day = (post.price as i64) * 100` in
`Order::confirm_submit` (line 542), with release-mode wrapping `i64`
multiplication. -/
def price_cents_per_day (post : Post) : Int := wrap_i64 (post.price * 100)

/-- The line-item quantity submitted by the live
`service::submit_stripe_checkout_session` (lines 178, 187):
`total_units = quantity.saturating_mul(days.max(1))`, then
`total_units.try_into().unwrap_or(0)` into the session's `u64` quantity. -/
def session_total_units (quantity days : Int) : Int :=
  u64_of_i64_or_zero (saturating_mul_i64 quantity (max days 1))

/-! ### The users table and the webhook handler -/

/-- A row of the `users` table, restricted to the columns the webhook and
Connect-status code touch.  `stripe_connect_verified` is stored as an SQL
integer (the code binds `1`/`0`). -/
structure UserRow where
  id : Int
  stripe_connect_account_id : Option String
  stripe_connect_verified : Int
deriving Repr, DecidableEq

abbrev UsersTable := List UserRow

/-- `UPDATE users SET stripe_connect_verified=?1 WHERE
stripe_connect_account_id=?2`. -/
def update_users_verified (users : UsersTable) (verified : Int)
    (aid : String) : UsersTable :=
  users.map (fun u =>
    if u.stripe_connect_account_id == some aid then
      { u with stripe_connect_verified := verified }
    else u)

/-- The verified rule of the webhook's `account.updated` branch
(`src/backend/src/plugins/users.rs` lines 875–879), extracting from the raw
JSON object fields. -/
def webhook_account_verified (obj : List (String × Json)) : Bool :=
  let charges := ((objGet obj "charges_enabled").bind Json.asBool).getD false
  let payouts := ((objGet obj "payouts_enabled").bind Json.asBool).getD false
  let due_empty :=
    ((((objGet obj "requirements").bind (fun r => r.get "currently_due")).bind
        Json.asArr).map List.isEmpty).getD false
  (charges && payouts) || due_empty

/-- `User::stripe_webhook` (`POST /webhooks/stripe`,
`src/backend/src/plugins/users.rs` lines 840–901), `stripe` feature build.
`secret` is `STRIPE_WEBHOOK_SECRET` (default `""`), `sig` the
`Stripe-Signature` header (default `""`), `sigOk` the outcome of
`stripe::Webhook::construct_event` (the external signature check), and
`bodyJson` the `serde_json::from_str(&body)` result (`none` = parse failure,
replaced by `Value::Null` via `unwrap_or_default`).  Returns the HTTP status
and the two tables. -/
def stripe_webhook (tab : OrdersTable) (users : UsersTable)
    (secret sig : String) (sigOk : Bool) (bodyJson : Option Json) :
    Nat × OrdersTable × UsersTable :=
  if secret = "" ∨ sig = "" then (200, tab, users)
  else if sigOk then
    let event := bodyJson.getD Json.null
    let etype := ((event.get "type").bind Json.asStr).getD ""
    let tab' :=
      if etype = "checkout.session.completed" then
        match ((event.get "data").bind (fun d => d.get "object")).bind
            Json.asObj with
        | some obj =>
          match (objGet obj "metadata").bind Json.asObj with
          | some meta =>
            match (objGet meta "order_id").bind Json.asStr with
            | some order_id_s =>
              match parseI64 order_id_s with
              | some order_id =>
                updateRows tab order_id (fun r => { r with status := "paid" })
              | none => tab
            | none => tab
          | none => tab
        | none => tab
      else tab
    let users' :=
      if etype = "account.updated" then
        match ((event.get "data").bind (fun d => d.get "object")).bind
            Json.asObj with
        | some obj =>
          let aid := ((objGet obj "id").bind Json.asStr).getD ""
          let verified := webhook_account_verified obj
          if aid ≠ "" then
            update_users_verified users (if verified then 1 else 0) aid
          else users
        | none => users
      else users
    (200, tab', users')
  else (400, tab, users)

/-! ### The manual Connect-status refresh rule -/

/-- `requirements` of a typed `stripe::Account`, restricted to
`currently_due`. -/
structure Requirements where
  currently_due : Option (List String)
deriving Repr, DecidableEq

/-- The capability payload of a Stripe account, as both the typed refresh
path and the webhook's raw-JSON path observe it. -/
structure AccountPayload where
  charges_enabled : Option Bool
  payouts_enabled : Option Bool
  requirements : Option Requirements
deriving Repr, DecidableEq

/-- The verified rule of `service::refresh_connect_status`
(`src/backend/src/plugins/users.rs` lines 392–400), over the typed account. -/
def refresh_verified (acct : AccountPayload) : Bool :=
  let charges := acct.charges_enabled.getD false
  let payouts := acct.payouts_enabled.getD false
  let due_empty :=
    ((acct.requirements.bind Requirements.currently_due).map
      List.isEmpty).getD false
  (charges && payouts) || due_empty

/-- The raw-JSON object fields of an `account.updated` event's `data.object`
carrying the payload `p`: each field is present exactly when the typed
account carries it. -/
def AccountPayload.toObj (p : AccountPayload) : List (String × Json) :=
  (match p.charges_enabled with
   | some b => [("charges_enabled", Json.bool b)]
   | none => []) ++
  (match p.payouts_enabled with
   | some b => [("payouts_enabled", Json.bool b)]
   | none => []) ++
  (match p.requirements with
   | some req =>
     [("requirements",
       Json.obj (match req.currently_due with
                 | some l => [("currently_due", Json.arr (l.map Json.str))]
                 | none => []))]
   | none => [])

/-- The canonical `checkout.session.completed` event carrying `order_id`
string `s` in its session metadata. -/
def checkoutCompletedEvent (s : String) : Json :=
  .obj [("type", .str "checkout.session.completed"),
        ("data", .obj [("object",
          .obj [("metadata", .obj [("order_id", .str s)])])])]

/-- Modelled from the spec: the conditional update the spec claims the
webhook performs, `SET status = Paid WHERE id = orderId AND
status != Cancelled`. -/
def spec_conditional_paid_update (tab : OrdersTable) (oid : Int) :
    OrdersTable :=
  tab.map (fun p =>
    if p.1 == oid && p.2.status != "cancelled" then
      (p.1, { p.2 with status := "paid" })
    else p)

/-- The row `Order::rent_request` inserts on success
(`INSERT INTO Orders ... VALUES (..., 'pending_review')`). -/
def mkPendingRow (id : Int) (u : AuthUser) (payload : NewOrder) : OrderRow :=
  { post_id := id
    renter_user_id := u.id
    renter_name := u.name
    renter_email := u.email
    quantity := payload.quantity
    start_date := payload.start_date
    end_date := payload.end_date
    status := "pending_review"
    stripe_session_id := none
    stripe_checkout_url := none }

/-! ### Helper lemmas about table updates -/

theorem lookupOrder_updateRows (tab : OrdersTable) (oid : Int)
    (f : OrderRow → OrderRow) :
    lookupOrder (updateRows tab oid f) oid = (lookupOrder tab oid).map f := by
  unfold lookupOrder updateRows
  induction tab with
  | nil => rfl
  | cons p t ih =>
    rcases p with ⟨i, r⟩
    rw [List.map_cons]
    by_cases h : i = oid
    · subst h
      rw [if_pos (by simp), List.find?_cons_of_pos _ (by simp),
        List.find?_cons_of_pos _ (by simp)]
      rfl
    · rw [if_neg (by simp [h]), List.find?_cons_of_neg _ (by simp [h]),
        List.find?_cons_of_neg _ (by simp [h])]
      exact ih

theorem updateRows_updateRows (tab : OrdersTable) (oid : Int)
    (f g : OrderRow → OrderRow) :
    updateRows (updateRows tab oid f) oid g =
      updateRows tab oid (fun r => g (f r)) := by
  unfold updateRows
  rw [List.map_map]
  apply List.map_congr_left
  intro p _
  cases hb : (p.1 == oid) with
  | true => simp [Function.comp, hb]
  | false => simp [Function.comp, hb]

/-! ### Claim theorems -/

/-- C3: a rent request against an existing listing succeeds and inserts
exactly one order row with status `pending_review` when quantity > 0, both
dates parse, end ≥ start, and the range lies within the (parsed) listing
window; when end < start or the range falls outside the window it fails with
400 and inserts no row. -/
theorem C3_create_validation (tab : OrdersTable) (posts : PostsTable)
    (id : Int) (u : AuthUser) (payload : NewOrder) (rowid : Int) (post : Post)
    (s e ps pe : Int)
    (hpost : posts id = some post)
    (hs : payload.start_date.parse = some s)
    (he : payload.end_date.parse = some e)
    (hsne : payload.start_date.trimEmpty = false)
    (hene : payload.end_date.trimEmpty = false)
    (hps : post.available_date.parse = some ps)
    (hpe : post.end_date.parse = some pe) :
    (0 < payload.quantity → s ≤ e → ps ≤ s → e ≤ pe →
      rent_request tab posts id (some u) payload rowid =
        (Resp.seeOther ("/orders/" ++ toString rowid ++ "/confirm"),
         tab ++ [(rowid, mkPendingRow id u payload)])) ∧
    ((e < s ∨ s < ps ∨ pe < e) →
      rent_request tab posts id (some u) payload rowid =
        (Resp.badRequest, tab)) := by
  have h1 : ¬(payload.quantity ≤ 0 ∨ payload.start_date.trimEmpty ∨
      payload.end_date.trimEmpty) ↔ 0 < payload.quantity := by
    simp [hsne, hene]
  constructor
  · intro hq hse hpss hepe
    have h2 : ¬(e < s) := by omega
    have h3 : ¬(s < ps ∨ pe < e) := by omega
    simp only [rent_request, hpost, hs, he, hps, hpe, Option.getD_some]
    rw [if_neg (h1.mpr hq), if_neg h2, if_neg h3]
    rfl
  · intro hbad
    by_cases hq : payload.quantity ≤ 0
    · simp only [rent_request, hpost, hs, he]
      rw [if_pos (Or.inl hq)]
    · simp only [rent_request, hpost, hs, he, hps, hpe, Option.getD_some]
      rw [if_neg (h1.mpr (by omega))]
      rcases hbad with h | h | h
      · rw [if_pos h]
      · by_cases hlt : e < s
        · rw [if_pos hlt]
        · rw [if_neg hlt, if_pos (Or.inl h)]
      · by_cases hlt : e < s
        · rw [if_pos hlt]
        · rw [if_neg hlt, if_pos (Or.inr h)]

/-! ### Concrete demonstration data used by witnesses and counterexamples -/

def demoUser : AuthUser := { id := 1, name := "Ann Renter", email := "ann@example.com" }

def otherUser : AuthUser := { id := 2, name := "Bob Other", email := "bob@example.com" }

def demoPost : Post :=
  { title := "Warehouse bay", price := 25, user_id := 7, spaces_available := 5,
    available_date := ⟨false, some 0⟩, end_date := ⟨false, some 100⟩ }

def demoPosts : PostsTable := fun i => if i = 3 then some demoPost else none

def demoPayload : NewOrder :=
  { quantity := 2, start_date := ⟨false, some 5⟩, end_date := ⟨false, some 10⟩ }

/-- An order like those `rent_request` inserts, owned by `demoUser`. -/
def demoPendingRow : OrderRow := mkPendingRow 3 demoUser demoPayload

theorem C3_witness :
    rent_request [] demoPosts 3 (some demoUser) demoPayload 1 =
      (Resp.seeOther ("/orders/" ++ toString (1 : Int) ++ "/confirm"),
       [] ++ [(1, mkPendingRow 3 demoUser demoPayload)]) :=
  (C3_create_validation [] demoPosts 3 demoUser demoPayload 1 demoPost 5 10 0 100
      rfl rfl rfl rfl rfl rfl rfl).1
    (by decide) (by decide) (by decide) (by decide)

/-- C10: an authenticated cancel of a nonexistent order id is answered with
403 Forbidden (the missing-row ownership lookup is treated as a mismatch),
never 404, and no mutation occurs. -/
theorem C10_cancel_missing_forbidden (tab : OrdersTable) (oid : Int)
    (u : AuthUser) (hmiss : lookupOrder tab oid = none) :
    cancel_order tab oid (some u) = (Resp.forbidden, tab) ∧
    respStatus (cancel_order tab oid (some u)).1 = 403 := by
  have hcond : (lookupOrder tab oid).map OrderRow.renter_user_id ≠ some u.id := by
    simp [hmiss]
  constructor
  · simp only [cancel_order]
    rw [if_pos hcond]
  · simp only [cancel_order]
    rw [if_pos hcond]
    rfl

theorem C10_witness :
    cancel_order [] 9 (some demoUser) = (Resp.forbidden, []) ∧
    respStatus (cancel_order [] 9 (some demoUser)).1 = 403 :=
  C10_cancel_missing_forbidden [] 9 demoUser rfl

/-- C6: a confirm or cancel by an authenticated user who is not the order's
renter is answered with 403 Forbidden and no database mutation occurs. -/
theorem C6_ownership_forbidden (tab : OrdersTable) (posts : PostsTable)
    (oid : Int) (u : AuthUser) (gateway : Option GatewayOutcome)
    (row : OrderRow)
    (hlook : lookupOrder tab oid = some row)
    (hmismatch : row.renter_user_id ≠ u.id) :
    confirm_submit tab posts oid (some u) gateway = (Resp.forbidden, tab) ∧
    cancel_order tab oid (some u) = (Resp.forbidden, tab) ∧
    respStatus Resp.forbidden = 403 := by
  refine ⟨?_, ?_, rfl⟩
  · simp only [confirm_submit, hlook]
    rw [if_pos hmismatch]
  · have hcond : (lookupOrder tab oid).map OrderRow.renter_user_id ≠ some u.id := by
      simp [hlook, hmismatch]
    simp only [cancel_order]
    rw [if_pos hcond]

theorem C6_witness :
    confirm_submit [(4, demoPendingRow)] demoPosts 4 (some otherUser) none =
      (Resp.forbidden, [(4, demoPendingRow)]) ∧
    cancel_order [(4, demoPendingRow)] 4 (some otherUser) =
      (Resp.forbidden, [(4, demoPendingRow)]) :=
  have h := C6_ownership_forbidden [(4, demoPendingRow)] demoPosts 4 otherUser
    none demoPendingRow rfl (by decide)
  ⟨h.1, h.2.1⟩

/-- C4: confirming an owned existing order persists both session fields and
status `submitted` and redirects to the checkout URL when the gateway
returns a session; when the gateway returns no session or fails hard, status
is still set to `submitted`, the session fields are not written, and the
caller gets the 200 pending page. -/
theorem C4_confirm_gateway_outcomes (tab : OrdersTable) (posts : PostsTable)
    (oid : Int) (u : AuthUser) (row : OrderRow) (post : Post)
    (hlook : lookupOrder tab oid = some row)
    (hown : row.renter_user_id = u.id)
    (hpost : posts row.post_id = some post) :
    (∀ sid url, confirm_submit tab posts oid (some u) (some (.session sid url)) =
      (Resp.seeOther url,
       updateRows tab oid (fun r =>
         { r with status := "submitted", stripe_session_id := some sid,
                  stripe_checkout_url := some url }))) ∧
    confirm_submit tab posts oid (some u) (some .noSession) =
      (Resp.okPage "rent_received_pending",
       updateRows tab oid (fun r => { r with status := "submitted" })) ∧
    confirm_submit tab posts oid (some u) (some .gatewayError) =
      (Resp.okPage "rent_received_pending",
       updateRows tab oid (fun r => { r with status := "submitted" })) ∧
    respStatus (Resp.okPage "rent_received_pending") = 200 := by
  have hneq : ¬ row.renter_user_id ≠ u.id := by simp [hown]
  refine ⟨?_, ?_, ?_, rfl⟩
  · intro sid url
    simp only [confirm_submit, hlook]
    rw [if_neg hneq]
    simp only [hpost]
  · simp only [confirm_submit, hlook]
    rw [if_neg hneq]
    simp only [hpost]
  · simp only [confirm_submit, hlook]
    rw [if_neg hneq]
    simp only [hpost]

theorem C4_witness :
    confirm_submit [(4, demoPendingRow)] demoPosts 4 (some demoUser)
        (some (.session "cs_123" "https://pay.example/s/123")) =
      (Resp.seeOther "https://pay.example/s/123",
       updateRows [(4, demoPendingRow)] 4 (fun r =>
         { r with status := "submitted", stripe_session_id := some "cs_123",
                  stripe_checkout_url := some "https://pay.example/s/123" })) ∧
    confirm_submit [(4, demoPendingRow)] demoPosts 4 (some demoUser)
        (some .noSession) =
      (Resp.okPage "rent_received_pending",
       updateRows [(4, demoPendingRow)] 4 (fun r => { r with status := "submitted" })) :=
  have h := C4_confirm_gateway_outcomes [(4, demoPendingRow)] demoPosts 4
    demoUser demoPendingRow demoPost rfl rfl rfl
  ⟨h.1 "cs_123" "https://pay.example/s/123", h.2.1⟩

/-- C9: when a listing's stored `available_date` (respectively `end_date`)
does not parse, validation substitutes the requested start (respectively
end) date for that window bound, the out-of-window check on that side passes
vacuously, and the order is created. -/
theorem C9_window_fallback (tab : OrdersTable) (posts : PostsTable)
    (id : Int) (u : AuthUser) (payload : NewOrder) (rowid : Int) (post : Post)
    (s e : Int)
    (hpost : posts id = some post)
    (hs : payload.start_date.parse = some s)
    (he : payload.end_date.parse = some e)
    (hsne : payload.start_date.trimEmpty = false)
    (hene : payload.end_date.trimEmpty = false)
    (hq : 0 < payload.quantity) (hse : s ≤ e) :
    (post.available_date.parse = none →
      e ≤ post.end_date.parse.getD e →
      rent_request tab posts id (some u) payload rowid =
        (Resp.seeOther ("/orders/" ++ toString rowid ++ "/confirm"),
         tab ++ [(rowid, mkPendingRow id u payload)])) ∧
    (post.end_date.parse = none →
      post.available_date.parse.getD s ≤ s →
      rent_request tab posts id (some u) payload rowid =
        (Resp.seeOther ("/orders/" ++ toString rowid ++ "/confirm"),
         tab ++ [(rowid, mkPendingRow id u payload)])) := by
  have h1 : ¬(payload.quantity ≤ 0 ∨ payload.start_date.trimEmpty ∨
      payload.end_date.trimEmpty) := by
    simp [hsne, hene]
    omega
  have h2 : ¬(e < s) := by omega
  constructor
  · intro hA hB
    have h3 : ¬(s < s ∨ Option.getD post.end_date.parse e < e) := by omega
    simp only [rent_request, hpost, hs, he, hA, Option.getD_none]
    rw [if_neg h1, if_neg h2, if_neg h3]
    rfl
  · intro hA hB
    have h3 : ¬(s < Option.getD post.available_date.parse s ∨ e < e) := by
      omega
    simp only [rent_request, hpost, hs, he, hA, Option.getD_none]
    rw [if_neg h1, if_neg h2, if_neg h3]
    rfl

/-- A listing whose stored `available_date` is not a parseable date. -/
def unusableWindowPost : Post :=
  { title := "Bad window", price := 10, user_id := 7, spaces_available := 3,
    available_date := ⟨false, none⟩, end_date := ⟨false, some 100⟩ }

def c9Posts : PostsTable := fun i => if i = 8 then some unusableWindowPost else none

theorem C9_witness :
    rent_request [] c9Posts 8 (some demoUser) demoPayload 2 =
      (Resp.seeOther ("/orders/" ++ toString (2 : Int) ++ "/confirm"),
       [] ++ [(2, mkPendingRow 8 demoUser demoPayload)]) :=
  (C9_window_fallback [] c9Posts 8 demoUser demoPayload 2 unusableWindowPost
      5 10 rfl rfl rfl rfl rfl (by decide) (by decide)).1
    rfl (by decide)

/-! ### Pricing arithmetic (C7) -/

theorem wrap_i64_eq_self (x : Int) (h1 : i64Min ≤ x) (h2 : x ≤ i64Max) :
    wrap_i64 x = x := by
  unfold wrap_i64
  unfold i64Min at h1
  unfold i64Max at h2
  rw [Int.emod_eq_of_lt (by omega) (by omega)]
  omega

/-- An order whose quantity is large enough to saturate the 64-bit
multiplication: quantity `2^62`, a 4-day parsed range. -/
def hugeQtyOrder : OrderRow :=
  { demoPendingRow with quantity := 2 ^ 62, start_date := ⟨false, some 0⟩,
                        end_date := ⟨false, some 4⟩ }

/-- C7 is false as stated: the line-item unit count the live adapter submits
is computed with `i64::saturating_mul`, so for a (form-reachable) quantity of
`2^62` over a 4-day range it is clamped to `i64::MAX` instead of the exact
product quantity × day-count. -/
theorem C7_counterexample :
    session_total_units hugeQtyOrder.quantity (confirm_days hugeQtyOrder 0) ≠
      hugeQtyOrder.quantity * confirm_days hugeQtyOrder 0 ∧
    session_total_units hugeQtyOrder.quantity (confirm_days hugeQtyOrder 0) =
      i64Max := by
  constructor
  · decide
  · decide

/-- C7 (amended): the session carries a per-day unit amount of price × 100
minor units and quantity × day-count units, with day-count =
end − start (minimum 1), whenever the products fit in `i64` (the code uses
`i64` saturating multiplication, clamping larger products). -/
theorem C7_amount_exact_when_in_range (order : OrderRow) (today : Int)
    (post : Post) (q s e : Int)
    (hs : order.start_date.parse = some s)
    (he : order.end_date.parse = some e)
    (hq : 0 ≤ q)
    (hfit : q * max (e - s) 1 ≤ i64Max)
    (hp1 : i64Min ≤ post.price * 100) (hp2 : post.price * 100 ≤ i64Max) :
    confirm_days order today = max (e - s) 1 ∧
    session_total_units q (confirm_days order today) = q * max (e - s) 1 ∧
    price_cents_per_day post = post.price * 100 := by
  have hdays : confirm_days order today = max (e - s) 1 := by
    simp [confirm_days, hs, he]
  refine ⟨hdays, ?_, ?_⟩
  · rw [hdays]
    have h1 : (1 : Int) ≤ max (e - s) 1 := le_max_right _ _
    have hmax : max (max (e - s) 1) 1 = max (e - s) 1 := max_eq_left h1
    have hnn : 0 ≤ q * max (e - s) 1 := mul_nonneg hq (by omega)
    have hA : ¬(i64Max < q * max (e - s) 1) := not_lt.mpr hfit
    have hB : ¬(q * max (e - s) 1 < i64Min) :=
      not_lt.mpr (le_trans (by unfold i64Min; omega) hnn)
    have hC : ¬(q * max (e - s) 1 < 0) := not_lt.mpr hnn
    unfold session_total_units saturating_mul_i64 u64_of_i64_or_zero
    rw [hmax, if_neg hA, if_neg hB, if_neg hC]
  · exact wrap_i64_eq_self _ hp1 hp2

theorem C7_witness :
    confirm_days demoPendingRow 0 = max (10 - 5) 1 ∧
    session_total_units 2 (confirm_days demoPendingRow 0) = 2 * max (10 - 5) 1 ∧
    price_cents_per_day demoPost = demoPost.price * 100 :=
  C7_amount_exact_when_in_range demoPendingRow 0 demoPost 2 5 10 rfl rfl
    (by decide) (by decide) (by decide) (by decide)

/-! ### The verified rule: refresh path vs webhook path (C8) -/

/-- C8: the manual refresh path and the webhook account-status path compute
the persisted verified flag by the identical rule — for every account
payload, verified = (charges_enabled AND payouts_enabled) OR
requirements.currently_due is empty, with missing fields treated as false. -/
theorem C8_refresh_webhook_agree (p : AccountPayload) :
    webhook_account_verified p.toObj = refresh_verified p := by
  obtain ⟨c, pay, req⟩ := p
  cases c <;> cases pay <;>
    rcases req with _ | ⟨_ | l⟩ <;>
      first
        | rfl
        | (cases l <;> rfl)

/-! ### Webhook behaviour (C1, C2, C5) -/

/-- Processing a verified `checkout.session.completed` event whose metadata
`order_id` parses to `oid` performs the unguarded paid update and
acknowledges with 200. -/
theorem stripe_webhook_completed (tab : OrdersTable) (users : UsersTable)
    (secret sig s : String) (oid : Int)
    (hsecret : secret ≠ "") (hsig : sig ≠ "")
    (hparse : parseI64 s = some oid) :
    stripe_webhook tab users secret sig true (some (checkoutCompletedEvent s)) =
      (200, updateRows tab oid (fun r => { r with status := "paid" }), users) := by
  unfold stripe_webhook
  rw [if_neg (by simp [hsecret, hsig]), if_pos rfl]
  simp [checkoutCompletedEvent, Json.get, Json.asStr, Json.asObj, objGet,
    hparse]

/-- A paid order owned by `demoUser`. -/
def paidDemoRow : OrderRow := { demoPendingRow with status := "paid" }

/-- A cancelled order owned by `demoUser`. -/
def cancelledDemoRow : OrderRow := { demoPendingRow with status := "cancelled" }

/-- C1 is false as stated: a cancel request by the owner of an order whose
status is `paid` does not leave the status unchanged — the unguarded update
overwrites it to `cancelled` and reports success. -/
theorem C1_counterexample :
    (lookupOrder [(1, paidDemoRow)] 1).map OrderRow.status = some "paid" ∧
    (lookupOrder (cancel_order [(1, paidDemoRow)] 1 (some demoUser)).2 1).map
        OrderRow.status ≠ some "paid" ∧
    (cancel_order [(1, paidDemoRow)] 1 (some demoUser)).1 =
      Resp.seeOther "/orders" := by
  refine ⟨rfl, ?_, rfl⟩
  decide

/-- C1 (amended): none of the three status writes is guarded by the current
status: applied by the owner to an order whose status is `paid` or
`cancelled`, cancel overwrites the status to `cancelled`, confirm (gateway
producing no session) to `submitted`, and verified webhook
payment-completed processing to `paid`, each surfaced as success — `Paid`
and `Cancelled` are not terminal. -/
theorem C1_terminal_status_overwritten (tab : OrdersTable)
    (posts : PostsTable) (users : UsersTable) (oid : Int) (u : AuthUser)
    (row : OrderRow) (post : Post) (secret sig s : String)
    (hlook : lookupOrder tab oid = some row)
    (hown : row.renter_user_id = u.id)
    (hterm : row.status = "paid" ∨ row.status = "cancelled")
    (hpost : posts row.post_id = some post)
    (hsecret : secret ≠ "") (hsig : sig ≠ "")
    (hparse : parseI64 s = some oid) :
    ((cancel_order tab oid (some u)).1 = Resp.seeOther "/orders" ∧
     (lookupOrder (cancel_order tab oid (some u)).2 oid).map OrderRow.status =
       some "cancelled") ∧
    ((confirm_submit tab posts oid (some u) (some .noSession)).1 =
       Resp.okPage "rent_received_pending" ∧
     (lookupOrder (confirm_submit tab posts oid (some u)
         (some .noSession)).2 oid).map OrderRow.status = some "submitted") ∧
    ((stripe_webhook tab users secret sig true
        (some (checkoutCompletedEvent s))).1 = 200 ∧
     (lookupOrder (stripe_webhook tab users secret sig true
         (some (checkoutCompletedEvent s))).2.1 oid).map OrderRow.status =
       some "paid") := by
  have hcan : cancel_order tab oid (some u) =
      (Resp.seeOther "/orders",
       updateRows tab oid (fun r => { r with status := "cancelled" })) := by
    simp only [cancel_order]
    rw [if_neg (by simp [hlook, hown])]
  have hcon : confirm_submit tab posts oid (some u) (some .noSession) =
      (Resp.okPage "rent_received_pending",
       updateRows tab oid (fun r => { r with status := "submitted" })) := by
    simp only [confirm_submit, hlook]
    rw [if_neg (by simp [hown])]
    simp only [hpost]
  have hweb := stripe_webhook_completed tab users secret sig s oid hsecret
    hsig hparse
  refine ⟨⟨?_, ?_⟩, ⟨?_, ?_⟩, ⟨?_, ?_⟩⟩
  · rw [hcan]
  · rw [hcan, lookupOrder_updateRows, hlook]
    rfl
  · rw [hcon]
  · rw [hcon, lookupOrder_updateRows, hlook]
    rfl
  · rw [hweb]
  · rw [hweb]
    rw [lookupOrder_updateRows, hlook]
    rfl

theorem C1_witness :
    ((cancel_order [(5, paidDemoRow)] 5 (some demoUser)).1 =
       Resp.seeOther "/orders" ∧
     (lookupOrder (cancel_order [(5, paidDemoRow)] 5 (some demoUser)).2 5).map
       OrderRow.status = some "cancelled") ∧
    ((confirm_submit [(5, paidDemoRow)] demoPosts 5 (some demoUser)
        (some .noSession)).1 = Resp.okPage "rent_received_pending" ∧
     (lookupOrder (confirm_submit [(5, paidDemoRow)] demoPosts 5
         (some demoUser) (some .noSession)).2 5).map OrderRow.status =
       some "submitted") ∧
    ((stripe_webhook [(5, paidDemoRow)] [] "whsec_a" "t=5,v1=sig" true
        (some (checkoutCompletedEvent "5"))).1 = 200 ∧
     (lookupOrder (stripe_webhook [(5, paidDemoRow)] [] "whsec_a" "t=5,v1=sig"
         true (some (checkoutCompletedEvent "5"))).2.1 5).map OrderRow.status =
       some "paid") :=
  C1_terminal_status_overwritten [(5, paidDemoRow)] demoPosts [] 5 demoUser
    paidDemoRow demoPost "whsec_a" "t=5,v1=sig" "5" rfl rfl (Or.inl rfl) rfl
    (by decide) (by decide) (by decide)

/-- C2 is false as stated: on a cancelled order the webhook's update is not
the claimed conditional `SET status = Paid WHERE id = orderId AND status !=
Cancelled` — the code overwrites the cancelled order to `paid`, while the
claimed update would leave it `cancelled`. -/
theorem C2_counterexample :
    (stripe_webhook [(7, cancelledDemoRow)] [] "whsec_b" "t=7,v1=sig" true
        (some (checkoutCompletedEvent "7"))).2.1 ≠
      spec_conditional_paid_update [(7, cancelledDemoRow)] 7 ∧
    (lookupOrder (stripe_webhook [(7, cancelledDemoRow)] [] "whsec_b"
        "t=7,v1=sig" true (some (checkoutCompletedEvent "7"))).2.1 7).map
      OrderRow.status = some "paid" ∧
    (lookupOrder (spec_conditional_paid_update [(7, cancelledDemoRow)] 7)
        7).map OrderRow.status = some "cancelled" := by
  refine ⟨?_, ?_, rfl⟩ <;> decide

/-- C2 (amended): a signature-verified `checkout.session.completed` event
with a parseable `order_id` performs the unconditional update
`SET status = 'paid' WHERE id = orderId` (no `status != Cancelled` guard);
delivering the identical event a second time is a no-op, leaving the single
end state `paid` for an existing order. -/
theorem C2_paid_update_idempotent (tab : OrdersTable) (users : UsersTable)
    (secret sig s : String) (oid : Int) (row : OrderRow)
    (hsecret : secret ≠ "") (hsig : sig ≠ "")
    (hparse : parseI64 s = some oid) :
    (stripe_webhook tab users secret sig true
        (some (checkoutCompletedEvent s))).2.1 =
      updateRows tab oid (fun r => { r with status := "paid" }) ∧
    (stripe_webhook (stripe_webhook tab users secret sig true
          (some (checkoutCompletedEvent s))).2.1 users secret sig true
        (some (checkoutCompletedEvent s))).2.1 =
      (stripe_webhook tab users secret sig true
        (some (checkoutCompletedEvent s))).2.1 ∧
    (stripe_webhook tab users secret sig true
        (some (checkoutCompletedEvent s))).1 = 200 ∧
    (lookupOrder tab oid = some row →
      (lookupOrder (stripe_webhook tab users secret sig true
          (some (checkoutCompletedEvent s))).2.1 oid).map OrderRow.status =
        some "paid") := by
  have hstep := stripe_webhook_completed tab users secret sig s oid hsecret
    hsig hparse
  have hstep2 := stripe_webhook_completed
    (updateRows tab oid (fun r => { r with status := "paid" })) users secret
    sig s oid hsecret hsig hparse
  have h1 : (stripe_webhook tab users secret sig true
      (some (checkoutCompletedEvent s))).2.1 =
      updateRows tab oid (fun r => { r with status := "paid" }) := by
    rw [hstep]
  refine ⟨h1, ?_, ?_, ?_⟩
  · rw [h1, hstep2, updateRows_updateRows]
  · rw [hstep]
  · intro hlook
    rw [h1, lookupOrder_updateRows, hlook]
    rfl

theorem C2_witness :
    (stripe_webhook [(6, demoPendingRow)] [] "whsec_c" "t=6,v1=sig" true
        (some (checkoutCompletedEvent "6"))).2.1 =
      updateRows [(6, demoPendingRow)] 6
        (fun r => { r with status := "paid" }) ∧
    (stripe_webhook (stripe_webhook [(6, demoPendingRow)] [] "whsec_c"
          "t=6,v1=sig" true (some (checkoutCompletedEvent "6"))).2.1 []
        "whsec_c" "t=6,v1=sig" true (some (checkoutCompletedEvent "6"))).2.1 =
      (stripe_webhook [(6, demoPendingRow)] [] "whsec_c" "t=6,v1=sig" true
        (some (checkoutCompletedEvent "6"))).2.1 ∧
    (stripe_webhook [(6, demoPendingRow)] [] "whsec_c" "t=6,v1=sig" true
        (some (checkoutCompletedEvent "6"))).1 = 200 ∧
    (lookupOrder [(6, demoPendingRow)] 6 = some demoPendingRow →
      (lookupOrder (stripe_webhook [(6, demoPendingRow)] [] "whsec_c"
          "t=6,v1=sig" true (some (checkoutCompletedEvent "6"))).2.1 6).map
        OrderRow.status = some "paid") :=
  C2_paid_update_idempotent [(6, demoPendingRow)] [] "whsec_c" "t=6,v1=sig"
    "6" 6 demoPendingRow (by decide) (by decide) (by decide)

/-- C5 is false as stated: a delivery with an empty `Stripe-Signature`
header — whose signature certainly does not verify — is acknowledged with
200 by the missing-verification-context early return, not rejected with
400 (no mutation occurs either way). -/
theorem C5_counterexample :
    stripe_webhook [(9, demoPendingRow)] [] "whsec_prod" "" false
        (some (checkoutCompletedEvent "9")) =
      (200, [(9, demoPendingRow)], []) ∧
    (stripe_webhook [(9, demoPendingRow)] [] "whsec_prod" "" false
        (some (checkoutCompletedEvent "9"))).1 ≠ 400 := by
  refine ⟨rfl, ?_⟩
  decide

/-- C5 (amended): when the shared secret or signature header is empty the
delivery is acknowledged with 200 and no mutation, without verification;
when both are nonempty, a failed signature is rejected with 400 and no
mutation; every signature-verified delivery returns 200, and unknown event
types and malformed inner JSON are acknowledged with 200 and no mutation. -/
theorem C5_webhook_statuses (tab : OrdersTable) (users : UsersTable)
    (secret sig : String) (bodyJson : Option Json) :
    (∀ sigOk, (secret = "" ∨ sig = "") →
      stripe_webhook tab users secret sig sigOk bodyJson = (200, tab, users)) ∧
    (secret ≠ "" → sig ≠ "" →
      stripe_webhook tab users secret sig false bodyJson = (400, tab, users)) ∧
    ((stripe_webhook tab users secret sig true bodyJson).1 = 200) ∧
    (stripe_webhook tab users secret sig true none = (200, tab, users)) ∧
    (∀ ev, ((ev.get "type").bind Json.asStr).getD "" ≠
        "checkout.session.completed" →
      ((ev.get "type").bind Json.asStr).getD "" ≠ "account.updated" →
      stripe_webhook tab users secret sig true (some ev) = (200, tab, users)) := by
  refine ⟨?_, ?_, ?_, ?_, ?_⟩
  · intro sigOk h
    unfold stripe_webhook
    rw [if_pos h]
  · intro h1 h2
    unfold stripe_webhook
    rw [if_neg (by simp [h1, h2]), if_neg (by simp)]
  · by_cases h : secret = "" ∨ sig = ""
    · unfold stripe_webhook
      rw [if_pos h]
    · unfold stripe_webhook
      rw [if_neg h, if_pos rfl]
  · by_cases h : secret = "" ∨ sig = ""
    · unfold stripe_webhook
      rw [if_pos h]
    · unfold stripe_webhook
      rw [if_neg h, if_pos rfl]
      simp [Json.get]
  · intro ev h3 h4
    by_cases h : secret = "" ∨ sig = ""
    · unfold stripe_webhook
      rw [if_pos h]
    · unfold stripe_webhook
      rw [if_neg h, if_pos rfl]
      simp only [Option.getD_some]
      rw [if_neg h3, if_neg h4]

theorem C5_witness :
    stripe_webhook [] [] "whsec_w" "t=9,v1=bad" false none = (400, [], []) :=
  (C5_webhook_statuses [] [] "whsec_w" "t=9,v1=bad" none).2.1 (by decide)
    (by decide)

end PalletSpaces
